import Mathlib

/-!
# Credential handlers of `controllers/userController.js`

A shallow embedding of the two request handlers `loginUser` and `signupUser`.

* A request body carries two optional string fields (`email`, `password`).
* The handlers talk to three collaborators that are required, not defined, by
  the controller: the `User` model (`findOne`, `create`), `bcrypt`
  (`genSalt`, `hash`, `compare`) and `validator` (`isEmail`,
  `isStrongPassword`).  They are parameters of the embedding.  Every awaited
  collaborator call may throw; a thrown error is its message.
* A handler call yields the responses it sent through `res`, the store it
  leaves behind and the collaborator calls it made, in program order.
-/

namespace UserController

/-! ## Data model -/

/-- An Account document: the two fields the controller writes in `User.create`. -/
structure Account where
  email : String
  password : String
  deriving DecidableEq, Repr

/-- The `req.body` of a request: each field is absent (`undefined`) or a string. -/
structure Request where
  email : Option String
  password : Option String
  deriving DecidableEq, Repr

/-- The JSON payload of a response: `{user}` or `{error}`. -/
inductive Body where
  | user (user : Account)
  | error (message : String)
  deriving DecidableEq, Repr

/-- One `res.status(status).json(body)`. -/
structure Response where
  status : Nat
  body : Body
  deriving DecidableEq, Repr

/-- A collaborator call made by a handler, with its arguments. -/
inductive Call where
  | isEmail (email : String)
  | isStrongPassword (password : String)
  | findOne (email : String)
  | compare (password hash : String)
  | genSalt (rounds : Nat)
  | hash (password salt : String)
  | create (email hash : String)
  deriving DecidableEq, Repr

/-- The collaborators of the controller over a store of type `σ`.  A call that
throws is `Except.error message`. -/
structure Collab (σ : Type) where
  isEmail : String → Bool
  isStrongPassword : String → Bool
  findOne : σ → String → Except String (Option Account)
  create : σ → String → String → Except String (Account × σ)
  genSalt : Nat → Except String String
  hash : String → String → Except String String
  compare : String → String → Except String Bool

/-- What a handler call leaves behind. -/
structure Outcome (σ : Type) where
  responses : List Response
  store : σ
  calls : List Call

/-! ## The handlers -/

/-- JavaScript truthiness of a field: `undefined` and `""` are falsy. -/
def truthy : Option String → Bool
  | none => false
  | some s => s != ""

/-- The string a field holds (only used after the field passed `truthy`). -/
def str (field : Option String) : String :=
  field.getD ""

/-- The `try` block of `loginUser` (lines 11-25): the returned user or the
message of the thrown error, with the calls made. -/
def loginTry {σ : Type} (c : Collab σ) (req : Request) (s : σ) :
    Except String Account × List Call :=
  let email := str req.email
  let password := str req.password
  if !truthy req.email || !truthy req.password then
    (.error "All fields must be filled", [])
  else
    match c.findOne s email with
    | .error message => (.error message, [.findOne email])
    | .ok none => (.error "Incorrect email", [.findOne email])
    | .ok (some user) =>
      match c.compare password user.password with
      | .error message =>
        (.error message, [.findOne email, .compare password user.password])
      | .ok false =>
        (.error "Incorrect password", [.findOne email, .compare password user.password])
      | .ok true =>
        (.ok user, [.findOne email, .compare password user.password])

/-- Handler `loginUser`: the `try` block, then 200 with the user, or the
`catch` block answering 400 with the caught message. -/
def loginUser {σ : Type} (c : Collab σ) (req : Request) (s : σ) : Outcome σ :=
  match loginTry c req s with
  | (.ok user, calls) => ⟨[⟨200, .user user⟩], s, calls⟩
  | (.error message, calls) => ⟨[⟨400, .error message⟩], s, calls⟩

/-- The `try` block of `signupUser` (lines 36-57). -/
def signupTry {σ : Type} (c : Collab σ) (req : Request) (s : σ) :
    Except String Account × σ × List Call :=
  let email := str req.email
  let password := str req.password
  if !truthy req.email || !truthy req.password then
    (.error "All fields must be filled", s, [])
  else if !c.isEmail email then
    (.error "Email not valid", s, [.isEmail email])
  else if !c.isStrongPassword password then
    (.error "Password not strong enough", s, [.isEmail email, .isStrongPassword password])
  else
    let checks := [Call.isEmail email, .isStrongPassword password, .findOne email]
    match c.findOne s email with
    | .error message => (.error message, s, checks)
    | .ok (some _) => (.error "Email already in use", s, checks)
    | .ok none =>
      match c.genSalt 10 with
      | .error message => (.error message, s, checks ++ [.genSalt 10])
      | .ok salt =>
        match c.hash password salt with
        | .error message =>
          (.error message, s, checks ++ [.genSalt 10, .hash password salt])
        | .ok hash =>
          match c.create s email hash with
          | .error message =>
            (.error message, s,
              checks ++ [.genSalt 10, .hash password salt, .create email hash])
          | .ok (user, s') =>
            (.ok user, s',
              checks ++ [.genSalt 10, .hash password salt, .create email hash])

/-- Handler `signupUser`. -/
def signupUser {σ : Type} (c : Collab σ) (req : Request) (s : σ) : Outcome σ :=
  match signupTry c req s with
  | (.ok user, s', calls) => ⟨[⟨200, .user user⟩], s', calls⟩
  | (.error message, s', calls) => ⟨[⟨400, .error message⟩], s', calls⟩

/-! ## The collaborators -/

/-- The store: the Account documents, oldest first. -/
abbrev Store := List Account

/-- Modelled from the spec: `User.findOne` of the Mongoose model
`../models/userModel`, which is not among the sources; the spec gives it as
`findByEmail(email) -> Account|null`, a point lookup with email compared as an
opaque string. -/
def Store.findOne (s : Store) (email : String) : Option Account :=
  s.find? (fun a => a.email == email)

/-- Modelled from the spec: `User.create` of the Mongoose model
`../models/userModel`, which is not among the sources; the spec gives it as
`create(email, passwordHash) -> Account`, one persistent write.  No uniqueness
constraint of the store is assumed. -/
def Store.create (s : Store) (email hash : String) : Account × Store :=
  (⟨email, hash⟩, s ++ [⟨email, hash⟩])

/-- The libraries as one handler call sees them: `validator` and `bcrypt`,
any call of the latter possibly throwing. -/
structure Libs where
  isEmail : String → Bool
  isStrongPassword : String → Bool
  genSalt : Nat → Except String String
  hash : String → String → Except String String
  compare : String → String → Except String Bool

/-- The collaborators of a deployment: the libraries and the list-backed store. -/
def onStore (lib : Libs) : Collab Store where
  isEmail := lib.isEmail
  isStrongPassword := lib.isStrongPassword
  findOne := fun s email => .ok (s.findOne email)
  create := fun s email hash => .ok (s.create email hash)
  genSalt := lib.genSalt
  hash := lib.hash
  compare := lib.compare

/-- The part of `validator` the spec leaves open: the email grammar, which no
empty string matches, and the characters that count as symbols. -/
structure Validator where
  isEmail : String → Bool
  isEmail_empty : isEmail "" = false
  isSymbol : Char → Bool

/-- Modelled from the spec: `validator.isStrongPassword` with its default
options (the library is not among the sources): length at least 8 and at least
one lowercase letter, one uppercase letter, one digit and one symbol. -/
def isStrongPassword (isSymbol : Char → Bool) (password : String) : Bool :=
  decide (8 ≤ password.length)
    && password.data.any Char.isLower
    && password.data.any Char.isUpper
    && password.data.any Char.isDigit
    && password.data.any isSymbol

/-- Modelled from the spec: the hashing collaborator `bcryptjs` on strings,
`hash(plaintext, salt) -> hashString` and `verify(plaintext, hashString) -> bool`. -/
structure Bcrypt where
  hash : String → String → String
  compare : String → String → Bool

/-- The contract of the hashing collaborator: a hash verifies against the
plaintext it was computed from, and is never that plaintext. -/
def Bcrypt.Sound (b : Bcrypt) : Prop :=
  ∀ password salt : String,
    b.compare password (b.hash password salt) = true ∧ b.hash password salt ≠ password

/-- Libraries that do not throw.  `salts` is the salt generator as this call
sees it (salt generation is random, so it may differ from call to call). -/
def working (v : Validator) (b : Bcrypt) (salts : Nat → String) : Libs where
  isEmail := v.isEmail
  isStrongPassword := isStrongPassword v.isSymbol
  genSalt := fun rounds => .ok (salts rounds)
  hash := fun password salt => .ok (b.hash password salt)
  compare := fun password hash => .ok (b.compare password hash)

/-! ## Sequential executions -/

/-- One handler call of a sequential execution, with the libraries as that
call sees them. -/
inductive Op where
  | signup (lib : Libs) (req : Request)
  | login (lib : Libs) (req : Request)

/-- The store after one call that ran to completion. -/
def step (s : Store) : Op → Store
  | .signup lib req => (signupUser (onStore lib) req s).store
  | .login lib req => (loginUser (onStore lib) req s).store

/-- The store after a sequence of calls, each completing before the next starts. -/
def runAll (ops : List Op) (s : Store) : Store :=
  ops.foldl step s

/-- No two Accounts of the store share an email. -/
def UniqueEmails (s : Store) : Prop :=
  s.Pairwise (fun a b => a.email ≠ b.email)

/-- A call is a write to the store. -/
def Call.isWrite : Call → Bool
  | .create _ _ => true
  | _ => false

/-- Both fields of the request pass the presence check of line 11 / line 37. -/
def Filled (req : Request) : Prop :=
  truthy req.email = true ∧ truthy req.password = true

/-- The request passes the three validation checks of `signupUser` (lines 37-45). -/
def Validated {σ : Type} (c : Collab σ) (req : Request) : Prop :=
  Filled req ∧ c.isEmail (str req.email) = true ∧
    c.isStrongPassword (str req.password) = true

/-! ## Sample collaborators -/

/-- A sample validator: an email has an `@`, a symbol is one of `!@#$%^&*`. -/
def sampleValidator : Validator where
  isEmail := fun s => s.data.contains '@'
  isEmail_empty := rfl
  isSymbol := fun c => "!@#$%^&*".data.contains c

/-- A sample hasher: the hash is the salt, a `$`, and the plaintext. -/
def sampleBcrypt : Bcrypt where
  hash := fun password salt => salt ++ "$" ++ password
  compare := fun password hash => (hash.data.drop (hash.length - password.length - 1)) == '$' :: password.data

/-- A sample salt generator. -/
def sampleSalts (rounds : Nat) : String :=
  "$2a$" ++ toString rounds ++ "$salt"

/-- Sample libraries that do not throw. -/
def sampleLibs : Libs :=
  working sampleValidator sampleBcrypt sampleSalts

/-- Sample libraries whose hasher throws on every call. -/
def sampleThrowing : Libs where
  isEmail := sampleValidator.isEmail
  isStrongPassword := isStrongPassword sampleValidator.isSymbol
  genSalt := fun _ => .error "Illegal arguments"
  hash := fun _ _ => .error "Illegal arguments"
  compare := fun _ _ => .error "Illegal arguments"

/-- Sample collaborators whose store cannot be reached. -/
def sampleUnreachable : Collab Store where
  isEmail := sampleValidator.isEmail
  isStrongPassword := isStrongPassword sampleValidator.isSymbol
  findOne := fun _ _ => .error "store unreachable"
  create := fun _ _ _ => .error "store unreachable"
  genSalt := fun rounds => .ok (sampleSalts rounds)
  hash := fun password salt => .ok (sampleBcrypt.hash password salt)
  compare := fun password hash => .ok (sampleBcrypt.compare password hash)


/-! ## Lemmas on the collaborators -/

@[simp]
theorem str_some (s : String) : str (some s) = s := rfl

theorem findOne_eq_none (s : Store) (email : String) :
    s.findOne email = none ↔ ∀ a ∈ s, a.email ≠ email := by
  simp [Store.findOne, List.find?_eq_none]

theorem findOne_append_new (s : Store) (email hash : String)
    (h : ∀ a ∈ s, a.email ≠ email) :
    Store.findOne (s ++ [⟨email, hash⟩]) email = some ⟨email, hash⟩ := by
  have h0 : List.find? (fun a => a.email == email) s = none := by
    simpa [Store.findOne] using (findOne_eq_none s email).2 h
  simp [Store.findOne, List.find?_append, h0]

theorem strong_ne_empty (isSymbol : Char → Bool) (password : String)
    (h : isStrongPassword isSymbol password = true) : password ≠ "" := by
  rintro rfl
  simp [isStrongPassword] at h

theorem valid_ne_empty (v : Validator) (email : String)
    (h : v.isEmail email = true) : email ≠ "" := by
  rintro rfl
  simp [v.isEmail_empty] at h

/-- A successful signup on the list-backed store, taken apart: every check
passed, the salt and the hash were obtained, and the created Account was
appended. -/
theorem signup_success (lib : Libs) (req : Request) (s : Store) (u : Account)
    (h : (signupUser (onStore lib) req s).responses = [⟨200, .user u⟩]) :
    ∃ salt, truthy req.email = true ∧ truthy req.password = true ∧
      lib.isEmail (str req.email) = true ∧
      lib.isStrongPassword (str req.password) = true ∧
      s.findOne (str req.email) = none ∧
      lib.genSalt 10 = .ok salt ∧
      lib.hash (str req.password) salt = .ok u.password ∧
      u.email = str req.email ∧
      (signupUser (onStore lib) req s).store = s ++ [u] ∧
      (signupUser (onStore lib) req s).calls =
        [.isEmail (str req.email), .isStrongPassword (str req.password),
          .findOne (str req.email), .genSalt 10, .hash (str req.password) salt,
          .create (str req.email) u.password] := by
  by_cases hf : (!truthy req.email || !truthy req.password) = true
  · simp [signupUser, signupTry, hf] at h
  by_cases hv : lib.isEmail (str req.email) = true
  swap
  · simp [signupUser, signupTry, hf, onStore, hv] at h
  by_cases hs : lib.isStrongPassword (str req.password) = true
  swap
  · simp [signupUser, signupTry, hf, onStore, hv, hs] at h
  cases hfind : s.findOne (str req.email) with
  | some a => simp [signupUser, signupTry, hf, onStore, hv, hs, hfind] at h
  | none =>
    cases hsalt : lib.genSalt 10 with
    | error m => simp [signupUser, signupTry, hf, onStore, hv, hs, hfind, hsalt] at h
    | ok salt =>
      cases hhash : lib.hash (str req.password) salt with
      | error m =>
        simp [signupUser, signupTry, hf, onStore, hv, hs, hfind, hsalt, hhash] at h
      | ok hash =>
        simp [signupUser, signupTry, hf, onStore, hv, hs, hfind, hsalt, hhash,
          Store.create] at h
        subst h
        simp only [Bool.not_eq_true, Bool.or_eq_false_iff, Bool.not_eq_false'] at hf
        refine ⟨salt, hf.1, hf.2, hv, hs, rfl, rfl, hhash, rfl, ?_, ?_⟩
        · simp [signupUser, signupTry, hf, onStore, hv, hs, hfind, hsalt, hhash,
            Store.create]
        · simp [signupUser, signupTry, hf, onStore, hv, hs, hfind, hsalt, hhash,
            Store.create]

/-- A login leaves the store as it found it. -/
theorem login_store {σ : Type} (c : Collab σ) (req : Request) (s : σ) :
    (loginUser c req s).store = s := by
  unfold loginUser
  rcases loginTry c req s with ⟨r, calls⟩
  cases r <;> rfl

/-- A login makes no write call. -/
theorem login_no_write {σ : Type} (c : Collab σ) (req : Request) (s : σ) :
    ∀ call ∈ (loginUser c req s).calls, call.isWrite = false := by
  by_cases hf : (!truthy req.email || !truthy req.password) = true
  · simp [loginUser, loginTry, hf]
  cases hfind : c.findOne s (str req.email) with
  | error m => simp [loginUser, loginTry, hf, hfind, Call.isWrite]
  | ok o =>
    cases o with
    | none => simp [loginUser, loginTry, hf, hfind, Call.isWrite]
    | some u =>
      cases hcmp : c.compare (str req.password) u.password with
      | error m => simp [loginUser, loginTry, hf, hfind, hcmp, Call.isWrite]
      | ok b => cases b <;> simp [loginUser, loginTry, hf, hfind, hcmp, Call.isWrite]

/-- A signup on the list-backed store either succeeds, or answers 400 and
neither changes the store nor makes a write call. -/
theorem signup_cases (lib : Libs) (req : Request) (s : Store) :
    (∃ u, (signupUser (onStore lib) req s).responses = [⟨200, .user u⟩]) ∨
    (∃ m, (signupUser (onStore lib) req s).responses = [⟨400, .error m⟩] ∧
      (signupUser (onStore lib) req s).store = s ∧
      ∀ call ∈ (signupUser (onStore lib) req s).calls, call.isWrite = false) := by
  by_cases hf : (!truthy req.email || !truthy req.password) = true
  · right; simp [signupUser, signupTry, hf]
  by_cases hv : lib.isEmail (str req.email) = true
  swap
  · right; simp [signupUser, signupTry, hf, onStore, hv, Call.isWrite]
  by_cases hs : lib.isStrongPassword (str req.password) = true
  swap
  · right; simp [signupUser, signupTry, hf, onStore, hv, hs, Call.isWrite]
  cases hfind : s.findOne (str req.email) with
  | some a => right; simp [signupUser, signupTry, hf, onStore, hv, hs, hfind, Call.isWrite]
  | none =>
    cases hsalt : lib.genSalt 10 with
    | error m =>
      right; simp [signupUser, signupTry, hf, onStore, hv, hs, hfind, hsalt, Call.isWrite]
    | ok salt =>
      cases hhash : lib.hash (str req.password) salt with
      | error m =>
        right
        simp [signupUser, signupTry, hf, onStore, hv, hs, hfind, hsalt, hhash, Call.isWrite]
      | ok hash =>
        left
        simp [signupUser, signupTry, hf, onStore, hv, hs, hfind, hsalt, hhash]

/-- One completed call keeps the emails of the store pairwise distinct. -/
theorem step_unique (s : Store) (op : Op) (h : UniqueEmails s) : UniqueEmails (step s op) := by
  cases op with
  | login lib req => simpa [step, login_store] using h
  | signup lib req =>
    rcases signup_cases lib req s with ⟨u, hu⟩ | ⟨m, -, hstore, -⟩
    · obtain ⟨salt, -, -, -, -, hfind, -, -, hmail, hstore, -⟩ :=
        signup_success lib req s u hu
      have hnew := (findOne_eq_none s (str req.email)).1 hfind
      simp only [step, hstore, UniqueEmails]
      rw [List.pairwise_append]
      refine ⟨h, List.pairwise_singleton _ _, ?_⟩
      intro a ha b hb
      rw [List.mem_singleton] at hb
      subst hb
      rw [hmail]
      exact hnew a ha
    · simpa [step, hstore] using h

/-! ## Missing fields -/

/-- C1: a request whose email or password is absent or empty is answered 400
"All fields must be filled" by both handlers, whatever the other field, the
collaborators and the store. -/
theorem missing_field_rejected {σ : Type} (c : Collab σ) (req : Request) (s : σ)
    (h : req.email = none ∨ req.email = some "" ∨
      req.password = none ∨ req.password = some "") :
    (loginUser c req s).responses = [⟨400, .error "All fields must be filled"⟩] ∧
    (signupUser c req s).responses = [⟨400, .error "All fields must be filled"⟩] := by
  have hf : (!truthy req.email || !truthy req.password) = true := by
    rcases h with h | h | h | h <;> simp [h, truthy]
  simp [loginUser, loginTry, signupUser, signupTry, hf]

/-- On the sample collaborators: an empty password next to a registered email is answered "All fields must be filled" by both handlers. -/
theorem missing_field_rejected_witness :
    (loginUser (onStore sampleLibs) ⟨some "a@b.com", some ""⟩
        [⟨"a@b.com", "h"⟩]).responses = [⟨400, .error "All fields must be filled"⟩] ∧
    (signupUser (onStore sampleLibs) ⟨some "a@b.com", some ""⟩
        [⟨"a@b.com", "h"⟩]).responses = [⟨400, .error "All fields must be filled"⟩] :=
  missing_field_rejected (onStore sampleLibs) ⟨some "a@b.com", some ""⟩ [⟨"a@b.com", "h"⟩]
    (Or.inr (Or.inr (Or.inr rfl)))

/-! ## Login -/

/-- C2: for a login request with both fields filled, over any store: the
answer is 200 with an Account exactly when the store holds that Account for
the submitted email and verification of the submitted password against its
stored hash succeeds; it is 400 "Incorrect email" when no Account has that
email, and 400 "Incorrect password" when the Account exists and verification
fails. -/
theorem login_outcome (lib : Libs) (email password : String) (s : Store)
    (he : email ≠ "") (hp : password ≠ "") :
    (∀ u, (loginUser (onStore lib) ⟨some email, some password⟩ s).responses
          = [⟨200, .user u⟩]
        ↔ (s.findOne email = some u ∧ lib.compare password u.password = .ok true)) ∧
    ((∀ a ∈ s, a.email ≠ email) →
      (loginUser (onStore lib) ⟨some email, some password⟩ s).responses
        = [⟨400, .error "Incorrect email"⟩]) ∧
    (∀ u, s.findOne email = some u → lib.compare password u.password = .ok false →
      (loginUser (onStore lib) ⟨some email, some password⟩ s).responses
        = [⟨400, .error "Incorrect password"⟩]) := by
  have hf : (!truthy (some email) || !truthy (some password)) = false := by
    simp [truthy, he, hp]
  refine ⟨?_, ?_, ?_⟩
  · intro u
    simp only [loginUser, loginTry, hf, onStore, str, Option.getD_some]
    cases hfind : s.findOne email with
    | none => simp
    | some a =>
      cases hcmp : lib.compare password a.password with
      | error m =>
        simp only [hcmp]
        simp
        rintro rfl; simp [hcmp]
      | ok b =>
        cases b
        · simp only [hcmp]
          simp
          rintro rfl; simp [hcmp]
        · simp only [hcmp]
          simp
          rintro rfl; exact hcmp
  · intro hnone
    have := (findOne_eq_none s email).2 hnone
    simp [loginUser, loginTry, hf, onStore, str, this]
  · intro u hfind hcmp
    simp [loginUser, loginTry, hf, onStore, str, hfind, hcmp]

/-- On the sample collaborators: a correct login, a login with an unknown email and a login with a wrong password. -/
theorem login_outcome_witness :
    (loginUser (onStore sampleLibs) ⟨some "a@b.com", some "Str0ng!Pass"⟩
        [⟨"a@b.com", "salt$Str0ng!Pass"⟩]).responses
      = [⟨200, .user ⟨"a@b.com", "salt$Str0ng!Pass"⟩⟩] ∧
    (loginUser (onStore sampleLibs) ⟨some "c@d.com", some "Str0ng!Pass"⟩
        [⟨"a@b.com", "salt$Str0ng!Pass"⟩]).responses
      = [⟨400, .error "Incorrect email"⟩] ∧
    (loginUser (onStore sampleLibs) ⟨some "a@b.com", some "Wr0ng!Pass"⟩
        [⟨"a@b.com", "salt$Str0ng!Pass"⟩]).responses
      = [⟨400, .error "Incorrect password"⟩] :=
  ⟨((login_outcome sampleLibs "a@b.com" "Str0ng!Pass" [⟨"a@b.com", "salt$Str0ng!Pass"⟩]
      (by decide) (by decide)).1 ⟨"a@b.com", "salt$Str0ng!Pass"⟩).2 ⟨by decide, rfl⟩,
   (login_outcome sampleLibs "c@d.com" "Str0ng!Pass" [⟨"a@b.com", "salt$Str0ng!Pass"⟩]
      (by decide) (by decide)).2.1 (by decide),
   (login_outcome sampleLibs "a@b.com" "Wr0ng!Pass" [⟨"a@b.com", "salt$Str0ng!Pass"⟩]
      (by decide) (by decide)).2.2 ⟨"a@b.com", "salt$Str0ng!Pass"⟩ (by decide) rfl⟩

/-! ## Signup -/

/-- C3: for a valid email and a strong password, from a store with no Account
for that email, the first of two successive signups with the same credentials
is answered 200 with the created Account and the second 400 "Email already in
use". -/
theorem signup_twice (v : Validator) (b : Bcrypt) (salts₁ salts₂ : Nat → String)
    (email password : String) (s : Store)
    (hv : v.isEmail email = true)
    (hs : isStrongPassword v.isSymbol password = true)
    (hnew : ∀ a ∈ s, a.email ≠ email) :
    (signupUser (onStore (working v b salts₁)) ⟨some email, some password⟩ s).responses
      = [⟨200, .user ⟨email, b.hash password (salts₁ 10)⟩⟩] ∧
    (signupUser (onStore (working v b salts₁)) ⟨some email, some password⟩ s).store
      = s ++ [⟨email, b.hash password (salts₁ 10)⟩] ∧
    (signupUser (onStore (working v b salts₂)) ⟨some email, some password⟩
        (signupUser (onStore (working v b salts₁)) ⟨some email, some password⟩ s).store).responses
      = [⟨400, .error "Email already in use"⟩] := by
  have he := valid_ne_empty v email hv
  have hp := strong_ne_empty v.isSymbol password hs
  have hf : (!truthy (some email) || !truthy (some password)) = false := by
    simp [truthy, he, hp]
  have h0 := (findOne_eq_none s email).2 hnew
  have h1 := findOne_append_new s email (b.hash password (salts₁ 10)) hnew
  have hstore : (signupUser (onStore (working v b salts₁)) ⟨some email, some password⟩ s).store
      = s ++ [⟨email, b.hash password (salts₁ 10)⟩] := by
    simp [signupUser, signupTry, hf, onStore, working, str, hv, hs, h0, Store.create]
  refine ⟨?_, hstore, ?_⟩
  · simp [signupUser, signupTry, hf, onStore, working, str, hv, hs, h0, Store.create]
  · rw [hstore]
    simp [signupUser, signupTry, hf, onStore, working, str, hv, hs, h1]

/-- On the sample collaborators: signing up `a@b.com` twice, the second call seeing another salt. -/
theorem signup_twice_witness :
    (signupUser (onStore (working sampleValidator sampleBcrypt sampleSalts))
        ⟨some "a@b.com", some "Str0ng!Pass"⟩ [⟨"c@d.com", "h"⟩]).responses
      = [⟨200, .user ⟨"a@b.com", sampleBcrypt.hash "Str0ng!Pass" (sampleSalts 10)⟩⟩] ∧
    (signupUser (onStore (working sampleValidator sampleBcrypt sampleSalts))
        ⟨some "a@b.com", some "Str0ng!Pass"⟩ [⟨"c@d.com", "h"⟩]).store
      = [⟨"c@d.com", "h"⟩] ++ [⟨"a@b.com", sampleBcrypt.hash "Str0ng!Pass" (sampleSalts 10)⟩] ∧
    (signupUser (onStore (working sampleValidator sampleBcrypt (fun _ => "other")))
        ⟨some "a@b.com", some "Str0ng!Pass"⟩
        (signupUser (onStore (working sampleValidator sampleBcrypt sampleSalts))
          ⟨some "a@b.com", some "Str0ng!Pass"⟩ [⟨"c@d.com", "h"⟩]).store).responses
      = [⟨400, .error "Email already in use"⟩] :=
  signup_twice sampleValidator sampleBcrypt sampleSalts (fun _ => "other")
    "a@b.com" "Str0ng!Pass" [⟨"c@d.com", "h"⟩] (by decide) (by decide) (by decide)

/-- C4: if a signup with email `e` and password `p` succeeds, a following
login with the same credentials on the resulting store is answered 200 with
the Account the signup created; the password stored in that Account is the
hasher's output, is not the plaintext `p`, and verifies against `p`. -/
theorem signup_then_login (v : Validator) (b : Bcrypt) (salts₁ salts₂ : Nat → String)
    (email password : String) (s : Store) (u : Account)
    (hb : b.Sound)
    (hok : (signupUser (onStore (working v b salts₁))
      ⟨some email, some password⟩ s).responses = [⟨200, .user u⟩]) :
    (loginUser (onStore (working v b salts₂)) ⟨some email, some password⟩
        (signupUser (onStore (working v b salts₁))
          ⟨some email, some password⟩ s).store).responses = [⟨200, .user u⟩] ∧
    u ∈ (signupUser (onStore (working v b salts₁)) ⟨some email, some password⟩ s).store ∧
    u.email = email ∧
    u.password = b.hash password (salts₁ 10) ∧
    u.password ≠ password ∧
    b.compare password u.password = true := by
  obtain ⟨salt, he, hp, -, -, hfind, hsalt, hhash, hmail, hstore, -⟩ :=
    signup_success (working v b salts₁) ⟨some email, some password⟩ s u hok
  simp only [str, Option.getD_some, working] at hfind hsalt hhash hmail
  have hsalt' : salts₁ 10 = salt := by simpa using hsalt
  have hpw : b.hash password salt = u.password := by simpa using hhash
  subst hsalt'
  have hu : u = ⟨email, b.hash password (salts₁ 10)⟩ := by
    cases u; simp only [Account.mk.injEq]; exact ⟨hmail, hpw.symm⟩
  have hf : (!truthy (some email) || !truthy (some password)) = false := by
    simp [he, hp]
  have h1 := findOne_append_new s email (b.hash password (salts₁ 10))
    ((findOne_eq_none s email).1 hfind)
  rw [hstore]
  subst hu
  refine ⟨?_, by simp, rfl, rfl, (hb password (salts₁ 10)).2, (hb password (salts₁ 10)).1⟩
  simp [loginUser, loginTry, hf, onStore, working, str, h1, (hb password (salts₁ 10)).1]

/-- The sample hasher meets the contract of the hashing collaborator. -/
theorem sampleBcrypt_sound : sampleBcrypt.Sound := by
  intro password salt
  have h1 : ("$" : String).length = 1 := rfl
  have h2 : salt.data.length = salt.length := rfl
  constructor
  · have hlen : (salt ++ "$" ++ password).length - password.length - 1 = salt.data.length := by
      rw [String.length_append, String.length_append, h1, h2]
      omega
    simp only [sampleBcrypt, hlen]
    simp [String.data_append]
  · intro h
    have := congrArg String.length h
    simp only [sampleBcrypt, String.length_append, h1] at this
    omega

/-- On the sample collaborators: signing up `a@b.com` with `Str0ng!Pass`, then logging in. -/
theorem signup_then_login_witness :
    (loginUser (onStore (working sampleValidator sampleBcrypt (fun _ => "other")))
        ⟨some "a@b.com", some "Str0ng!Pass"⟩
        (signupUser (onStore (working sampleValidator sampleBcrypt sampleSalts))
          ⟨some "a@b.com", some "Str0ng!Pass"⟩ []).store).responses
      = [⟨200, .user ⟨"a@b.com", "$2a$10$salt$Str0ng!Pass"⟩⟩] ∧
    (⟨"a@b.com", "$2a$10$salt$Str0ng!Pass"⟩ : Account) ∈
      (signupUser (onStore (working sampleValidator sampleBcrypt sampleSalts))
        ⟨some "a@b.com", some "Str0ng!Pass"⟩ []).store ∧
    (⟨"a@b.com", "$2a$10$salt$Str0ng!Pass"⟩ : Account).email = "a@b.com" ∧
    (⟨"a@b.com", "$2a$10$salt$Str0ng!Pass"⟩ : Account).password
      = sampleBcrypt.hash "Str0ng!Pass" (sampleSalts 10) ∧
    (⟨"a@b.com", "$2a$10$salt$Str0ng!Pass"⟩ : Account).password ≠ "Str0ng!Pass" ∧
    sampleBcrypt.compare "Str0ng!Pass"
      (⟨"a@b.com", "$2a$10$salt$Str0ng!Pass"⟩ : Account).password = true :=
  signup_then_login sampleValidator sampleBcrypt sampleSalts (fun _ => "other")
    "a@b.com" "Str0ng!Pass" [] ⟨"a@b.com", "$2a$10$salt$Str0ng!Pass"⟩
    sampleBcrypt_sound (by decide)

theorem isStrongPassword_iff (isSymbol : Char → Bool) (password : String) :
    isStrongPassword isSymbol password = true ↔
      (8 ≤ password.length ∧ (∃ ch ∈ password.data, ch.isLower = true) ∧
        (∃ ch ∈ password.data, ch.isUpper = true) ∧
        (∃ ch ∈ password.data, ch.isDigit = true) ∧
        (∃ ch ∈ password.data, isSymbol ch = true)) := by
  simp [isStrongPassword, List.any_eq_true, and_assoc]

/-- C5 as stated fails: the empty password does not satisfy the strength
policy, yet with a valid email the answer is "All fields must be filled", not
"Password not strong enough". -/
theorem weak_password_counterexample :
    sampleValidator.isEmail "a@b.com" = true ∧
    isStrongPassword sampleValidator.isSymbol "" = false ∧
    (signupUser (onStore sampleLibs) ⟨some "a@b.com", some ""⟩ []).responses
      = [⟨400, .error "All fields must be filled"⟩] ∧
    (signupUser (onStore sampleLibs) ⟨some "a@b.com", some ""⟩ []).responses
      ≠ [⟨400, .error "Password not strong enough"⟩] := by
  decide

/-- C5 amended: a signup with a valid email and a non-empty password that does
not satisfy the strength policy (length at least 8, a lowercase letter, an
uppercase letter, a digit and a symbol) is answered 400 "Password not strong
enough"; and a password that satisfies all five conditions is never answered
with that message, whatever the email field and the store. -/
theorem weak_password_rejected (v : Validator) (b : Bcrypt) (salts : Nat → String)
    (password : String) (s : Store) :
    (∀ email : String, v.isEmail email = true → password ≠ "" →
      ¬ (8 ≤ password.length ∧ (∃ ch ∈ password.data, ch.isLower = true) ∧
        (∃ ch ∈ password.data, ch.isUpper = true) ∧
        (∃ ch ∈ password.data, ch.isDigit = true) ∧
        (∃ ch ∈ password.data, v.isSymbol ch = true)) →
      (signupUser (onStore (working v b salts)) ⟨some email, some password⟩ s).responses
        = [⟨400, .error "Password not strong enough"⟩]) ∧
    (∀ emailField : Option String,
      (8 ≤ password.length ∧ (∃ ch ∈ password.data, ch.isLower = true) ∧
        (∃ ch ∈ password.data, ch.isUpper = true) ∧
        (∃ ch ∈ password.data, ch.isDigit = true) ∧
        (∃ ch ∈ password.data, v.isSymbol ch = true)) →
      (signupUser (onStore (working v b salts)) ⟨emailField, some password⟩ s).responses
        ≠ [⟨400, .error "Password not strong enough"⟩]) := by
  constructor
  · intro email hv hp hweak
    have he := valid_ne_empty v email hv
    have hs : isStrongPassword v.isSymbol password = false := by
      rw [← Bool.not_eq_true, isStrongPassword_iff]; exact hweak
    simp [signupUser, signupTry, truthy, he, hp, onStore, working, str, hv, hs]
  · intro emailField hstrong
    have hs : isStrongPassword v.isSymbol password = true :=
      (isStrongPassword_iff v.isSymbol password).2 hstrong
    by_cases hf : (!truthy emailField || !truthy (some password)) = true
    · simp [signupUser, signupTry, hf]
    by_cases hv : v.isEmail (str emailField) = true
    swap
    · simp [signupUser, signupTry, hf, onStore, working, hv]
    cases hfind : s.findOne (str emailField) with
    | some a => simp [signupUser, signupTry, hf, onStore, working, hv, hs, hfind]
    | none => simp [signupUser, signupTry, hf, onStore, working, hv, hs, hfind]

/-- On the sample collaborators: `weak` is rejected as not strong enough, `Str0ng!Pass` is not. -/
theorem weak_password_rejected_witness :
    (signupUser (onStore (working sampleValidator sampleBcrypt sampleSalts))
        ⟨some "a@b.com", some "weak"⟩ []).responses
      = [⟨400, .error "Password not strong enough"⟩] ∧
    (signupUser (onStore (working sampleValidator sampleBcrypt sampleSalts))
        ⟨some "a@b.com", some "Str0ng!Pass"⟩ [⟨"a@b.com", "h"⟩]).responses
      ≠ [⟨400, .error "Password not strong enough"⟩] :=
  ⟨(weak_password_rejected sampleValidator sampleBcrypt sampleSalts "weak" []).1
      "a@b.com" (by decide) (by decide) (by decide),
   (weak_password_rejected sampleValidator sampleBcrypt sampleSalts "Str0ng!Pass"
      [⟨"a@b.com", "h"⟩]).2 (some "a@b.com") (by decide)⟩

/-- C6 as stated fails: "not-an-email" does not match the email grammar, yet
with an empty or absent password the answer is "All fields must be filled",
not "Email not valid"; the same holds for the empty email with any password. -/
theorem invalid_email_counterexample :
    sampleValidator.isEmail "not-an-email" = false ∧
    (signupUser (onStore sampleLibs) ⟨some "not-an-email", some ""⟩ []).responses
      = [⟨400, .error "All fields must be filled"⟩] ∧
    (signupUser (onStore sampleLibs) ⟨some "not-an-email", none⟩ []).responses
      = [⟨400, .error "All fields must be filled"⟩] ∧
    (signupUser (onStore sampleLibs) ⟨some "not-an-email", some ""⟩ []).responses
      ≠ [⟨400, .error "Email not valid"⟩] ∧
    sampleValidator.isEmail "" = false ∧
    (signupUser (onStore sampleLibs) ⟨some "", some "Str0ng!Pass"⟩ []).responses
      = [⟨400, .error "All fields must be filled"⟩] := by
  decide

/-- C6 amended: a signup whose email is non-empty and does not match the email
grammar, with any non-empty password, is answered 400 "Email not valid",
whatever the other collaborators and the store. -/
theorem invalid_email_rejected {σ : Type} (c : Collab σ) (email password : String) (s : σ)
    (he : email ≠ "") (hp : password ≠ "") (hv : c.isEmail email = false) :
    (signupUser c ⟨some email, some password⟩ s).responses
      = [⟨400, .error "Email not valid"⟩] := by
  simp [signupUser, signupTry, truthy, he, hp, str, hv]

/-- On the sample collaborators: `not-an-email` with the password `weak` is answered "Email not valid". -/
theorem invalid_email_rejected_witness :
    (signupUser (onStore sampleLibs) ⟨some "not-an-email", some "weak"⟩
        [⟨"not-an-email", "h"⟩]).responses = [⟨400, .error "Email not valid"⟩] :=
  invalid_email_rejected (onStore sampleLibs) "not-an-email" "weak" [⟨"not-an-email", "h"⟩]
    (by decide) (by decide) (by decide)

/-! ## Order of the checks -/

/-- C7: each handler reports the first failing check and makes no later call.
`signupUser`: missing field, then invalid email, then weak password, then
email already in use; the store is not queried when one of the first three
fails.  `loginUser`: missing field, then unknown email, then wrong password;
the hash is not verified when the email is unknown. -/
theorem first_failing_check {σ : Type} (c : Collab σ) (req : Request) (s : σ) :
    (¬ Filled req →
      (signupUser c req s).responses = [⟨400, .error "All fields must be filled"⟩] ∧
      (signupUser c req s).calls = []) ∧
    (Filled req → c.isEmail (str req.email) = false →
      (signupUser c req s).responses = [⟨400, .error "Email not valid"⟩] ∧
      (signupUser c req s).calls = [.isEmail (str req.email)]) ∧
    (Filled req → c.isEmail (str req.email) = true →
      c.isStrongPassword (str req.password) = false →
      (signupUser c req s).responses = [⟨400, .error "Password not strong enough"⟩] ∧
      (signupUser c req s).calls
        = [.isEmail (str req.email), .isStrongPassword (str req.password)]) ∧
    (∀ u, Validated c req → c.findOne s (str req.email) = .ok (some u) →
      (signupUser c req s).responses = [⟨400, .error "Email already in use"⟩] ∧
      (signupUser c req s).calls
        = [.isEmail (str req.email), .isStrongPassword (str req.password),
            .findOne (str req.email)]) ∧
    (¬ Filled req →
      (loginUser c req s).responses = [⟨400, .error "All fields must be filled"⟩] ∧
      (loginUser c req s).calls = []) ∧
    (Filled req → c.findOne s (str req.email) = .ok none →
      (loginUser c req s).responses = [⟨400, .error "Incorrect email"⟩] ∧
      (loginUser c req s).calls = [.findOne (str req.email)]) ∧
    (∀ u, Filled req → c.findOne s (str req.email) = .ok (some u) →
      c.compare (str req.password) u.password = .ok false →
      (loginUser c req s).responses = [⟨400, .error "Incorrect password"⟩] ∧
      (loginUser c req s).calls
        = [.findOne (str req.email), .compare (str req.password) u.password]) := by
  have hmiss : ¬ Filled req → (!truthy req.email || !truthy req.password) = true := by
    intro h
    simp only [Filled, not_and_or, Bool.not_eq_true] at h
    rcases h with h | h <;> simp [h]
  have hfill : Filled req → (!truthy req.email || !truthy req.password) = false := by
    rintro ⟨h1, h2⟩; simp [h1, h2]
  refine ⟨?_, ?_, ?_, ?_, ?_, ?_, ?_⟩
  · intro h
    simp [signupUser, signupTry, hmiss h]
  · intro h hv
    simp [signupUser, signupTry, hfill h, hv]
  · intro h hv hs
    simp [signupUser, signupTry, hfill h, hv, hs]
  · rintro u ⟨h, hv, hs⟩ hfind
    simp [signupUser, signupTry, hfill h, hv, hs, hfind]
  · intro h
    simp [loginUser, loginTry, hmiss h]
  · intro h hfind
    simp [loginUser, loginTry, hfill h, hfind]
  · intro u h hfind hcmp
    simp [loginUser, loginTry, hfill h, hfind, hcmp]

/-- On the sample collaborators: one request per failing check, each failing later checks as well where that is possible. -/
theorem first_failing_check_witness :
    ((signupUser (onStore sampleLibs) ⟨some "", some "weak"⟩ []).responses
        = [⟨400, .error "All fields must be filled"⟩] ∧
      (signupUser (onStore sampleLibs) ⟨some "", some "weak"⟩ []).calls = []) ∧
    ((signupUser (onStore sampleLibs) ⟨some "not-an-email", some "weak"⟩
          [⟨"not-an-email", "h"⟩]).responses = [⟨400, .error "Email not valid"⟩] ∧
      (signupUser (onStore sampleLibs) ⟨some "not-an-email", some "weak"⟩
          [⟨"not-an-email", "h"⟩]).calls = [.isEmail "not-an-email"]) ∧
    ((signupUser (onStore sampleLibs) ⟨some "a@b.com", some "weak"⟩
          [⟨"a@b.com", "h"⟩]).responses = [⟨400, .error "Password not strong enough"⟩] ∧
      (signupUser (onStore sampleLibs) ⟨some "a@b.com", some "weak"⟩
          [⟨"a@b.com", "h"⟩]).calls = [.isEmail "a@b.com", .isStrongPassword "weak"]) ∧
    ((signupUser (onStore sampleLibs) ⟨some "a@b.com", some "Str0ng!Pass"⟩
          [⟨"a@b.com", "h"⟩]).responses = [⟨400, .error "Email already in use"⟩] ∧
      (signupUser (onStore sampleLibs) ⟨some "a@b.com", some "Str0ng!Pass"⟩
          [⟨"a@b.com", "h"⟩]).calls
        = [.isEmail "a@b.com", .isStrongPassword "Str0ng!Pass", .findOne "a@b.com"]) ∧
    ((loginUser (onStore sampleLibs) ⟨none, some "weak"⟩ []).responses
        = [⟨400, .error "All fields must be filled"⟩] ∧
      (loginUser (onStore sampleLibs) ⟨none, some "weak"⟩ []).calls = []) ∧
    ((loginUser (onStore sampleLibs) ⟨some "c@d.com", some "weak"⟩
          [⟨"a@b.com", "h"⟩]).responses = [⟨400, .error "Incorrect email"⟩] ∧
      (loginUser (onStore sampleLibs) ⟨some "c@d.com", some "weak"⟩
          [⟨"a@b.com", "h"⟩]).calls = [.findOne "c@d.com"]) ∧
    ((loginUser (onStore sampleLibs) ⟨some "a@b.com", some "weak"⟩
          [⟨"a@b.com", "h"⟩]).responses = [⟨400, .error "Incorrect password"⟩] ∧
      (loginUser (onStore sampleLibs) ⟨some "a@b.com", some "weak"⟩
          [⟨"a@b.com", "h"⟩]).calls = [.findOne "a@b.com", .compare "weak" "h"]) :=
  ⟨(first_failing_check (onStore sampleLibs) ⟨some "", some "weak"⟩ []).1
      (fun h => absurd h.1 (by decide)),
   (first_failing_check (onStore sampleLibs) ⟨some "not-an-email", some "weak"⟩
      [⟨"not-an-email", "h"⟩]).2.1 ⟨rfl, rfl⟩ (by decide),
   (first_failing_check (onStore sampleLibs) ⟨some "a@b.com", some "weak"⟩
      [⟨"a@b.com", "h"⟩]).2.2.1 ⟨rfl, rfl⟩ (by decide) (by decide),
   (first_failing_check (onStore sampleLibs) ⟨some "a@b.com", some "Str0ng!Pass"⟩
      [⟨"a@b.com", "h"⟩]).2.2.2.1 ⟨"a@b.com", "h"⟩ ⟨⟨rfl, rfl⟩, by decide, by decide⟩ rfl,
   (first_failing_check (onStore sampleLibs) ⟨none, some "weak"⟩ []).2.2.2.2.1
      (fun h => absurd h.1 (by decide)),
   (first_failing_check (onStore sampleLibs) ⟨some "c@d.com", some "weak"⟩
      [⟨"a@b.com", "h"⟩]).2.2.2.2.2.1 ⟨rfl, rfl⟩ rfl,
   (first_failing_check (onStore sampleLibs) ⟨some "a@b.com", some "weak"⟩
      [⟨"a@b.com", "h"⟩]).2.2.2.2.2.2 ⟨"a@b.com", "h"⟩ ⟨rfl, rfl⟩ rfl rfl⟩

/-! ## Responses and caught errors -/

/-- C8: whatever the collaborators do, each handler sends exactly one response:
200 with the user the `try` block produced, or 400 with the message of the
error the `try` block raised.  An error thrown by the store lookup, the
verification, the salt generation, the hashing or the insert is answered 400
with that error's message. -/
theorem one_response {σ : Type} (c : Collab σ) (req : Request) (s : σ) :
    ((∃ u, (loginTry c req s).1 = .ok u ∧
        (loginUser c req s).responses = [⟨200, .user u⟩]) ∨
      (∃ m, (loginTry c req s).1 = .error m ∧
        (loginUser c req s).responses = [⟨400, .error m⟩])) ∧
    ((∃ u, (signupTry c req s).1 = .ok u ∧
        (signupUser c req s).responses = [⟨200, .user u⟩]) ∨
      (∃ m, (signupTry c req s).1 = .error m ∧
        (signupUser c req s).responses = [⟨400, .error m⟩])) ∧
    (∀ m, Filled req → c.findOne s (str req.email) = .error m →
      (loginUser c req s).responses = [⟨400, .error m⟩]) ∧
    (∀ m u, Filled req → c.findOne s (str req.email) = .ok (some u) →
      c.compare (str req.password) u.password = .error m →
      (loginUser c req s).responses = [⟨400, .error m⟩]) ∧
    (∀ m, Validated c req → c.findOne s (str req.email) = .error m →
      (signupUser c req s).responses = [⟨400, .error m⟩]) ∧
    (∀ m, Validated c req → c.findOne s (str req.email) = .ok none →
      c.genSalt 10 = .error m →
      (signupUser c req s).responses = [⟨400, .error m⟩]) ∧
    (∀ m salt, Validated c req → c.findOne s (str req.email) = .ok none →
      c.genSalt 10 = .ok salt → c.hash (str req.password) salt = .error m →
      (signupUser c req s).responses = [⟨400, .error m⟩]) ∧
    (∀ m salt hash, Validated c req → c.findOne s (str req.email) = .ok none →
      c.genSalt 10 = .ok salt → c.hash (str req.password) salt = .ok hash →
      c.create s (str req.email) hash = .error m →
      (signupUser c req s).responses = [⟨400, .error m⟩]) := by
  have hfill : Filled req → (!truthy req.email || !truthy req.password) = false := by
    rintro ⟨h1, h2⟩; simp [h1, h2]
  refine ⟨?_, ?_, ?_, ?_, ?_, ?_, ?_, ?_⟩
  · unfold loginUser
    rcases hr : loginTry c req s with ⟨r, calls⟩
    cases r with
    | ok u => exact Or.inl ⟨u, rfl, rfl⟩
    | error m => exact Or.inr ⟨m, rfl, rfl⟩
  · unfold signupUser
    rcases hr : signupTry c req s with ⟨r, s', calls⟩
    cases r with
    | ok u => exact Or.inl ⟨u, rfl, rfl⟩
    | error m => exact Or.inr ⟨m, rfl, rfl⟩
  · intro m h hfind
    simp [loginUser, loginTry, hfill h, hfind]
  · intro m u h hfind hcmp
    simp [loginUser, loginTry, hfill h, hfind, hcmp]
  · rintro m ⟨h, hv, hs⟩ hfind
    simp [signupUser, signupTry, hfill h, hv, hs, hfind]
  · rintro m ⟨h, hv, hs⟩ hfind hsalt
    simp [signupUser, signupTry, hfill h, hv, hs, hfind, hsalt]
  · rintro m salt ⟨h, hv, hs⟩ hfind hsalt hhash
    simp [signupUser, signupTry, hfill h, hv, hs, hfind, hsalt, hhash]
  · rintro m salt hash ⟨h, hv, hs⟩ hfind hsalt hhash hcreate
    simp [signupUser, signupTry, hfill h, hv, hs, hfind, hsalt, hhash, hcreate]

/-- On failing sample collaborators: an unreachable store and a throwing hasher, for both handlers. -/
theorem one_response_witness :
    (loginUser sampleUnreachable ⟨some "a@b.com", some "Str0ng!Pass"⟩ []).responses
      = [⟨400, .error "store unreachable"⟩] ∧
    (loginUser (onStore sampleThrowing) ⟨some "a@b.com", some "Str0ng!Pass"⟩
        [⟨"a@b.com", "h"⟩]).responses = [⟨400, .error "Illegal arguments"⟩] ∧
    (signupUser sampleUnreachable ⟨some "a@b.com", some "Str0ng!Pass"⟩ []).responses
      = [⟨400, .error "store unreachable"⟩] ∧
    (signupUser (onStore sampleThrowing) ⟨some "a@b.com", some "Str0ng!Pass"⟩ []).responses
      = [⟨400, .error "Illegal arguments"⟩] :=
  ⟨(one_response sampleUnreachable ⟨some "a@b.com", some "Str0ng!Pass"⟩ []).2.2.1
      "store unreachable" ⟨rfl, rfl⟩ rfl,
   (one_response (onStore sampleThrowing) ⟨some "a@b.com", some "Str0ng!Pass"⟩
      [⟨"a@b.com", "h"⟩]).2.2.2.1 "Illegal arguments" ⟨"a@b.com", "h"⟩ ⟨rfl, rfl⟩ rfl rfl,
   (one_response sampleUnreachable ⟨some "a@b.com", some "Str0ng!Pass"⟩ []).2.2.2.2.1
      "store unreachable" ⟨⟨rfl, rfl⟩, by decide, by decide⟩ rfl,
   (one_response (onStore sampleThrowing) ⟨some "a@b.com", some "Str0ng!Pass"⟩ []).2.2.2.2.2.1
      "Illegal arguments" ⟨⟨rfl, rfl⟩, by decide, by decide⟩ rfl rfl⟩

/-! ## The store -/

/-- C9: if no two Accounts of the store share an email, then after any
sequence of signup and login calls, each completing before the next starts,
still no two Accounts share an email. -/
theorem unique_emails_preserved (ops : List Op) (s : Store) (h : UniqueEmails s) :
    UniqueEmails (runAll ops s) := by
  induction ops generalizing s with
  | nil => simpa [runAll] using h
  | cons op ops ih =>
    have := ih (step s op) (step_unique s op h)
    simpa [runAll] using this

/-- On the sample collaborators: four calls from a one-Account store, among them a repeated signup and one whose hasher throws. -/
theorem unique_emails_preserved_witness :
    UniqueEmails [⟨"c@d.com", "h"⟩] ∧
    UniqueEmails (runAll
      [.signup sampleLibs ⟨some "a@b.com", some "Str0ng!Pass"⟩,
        .login sampleLibs ⟨some "a@b.com", some "Str0ng!Pass"⟩,
        .signup sampleLibs ⟨some "a@b.com", some "0ther!Pass"⟩,
        .signup sampleThrowing ⟨some "e@f.com", some "Str0ng!Pass"⟩]
      [⟨"c@d.com", "h"⟩]) :=
  ⟨by simp [UniqueEmails],
   unique_emails_preserved
      [.signup sampleLibs ⟨some "a@b.com", some "Str0ng!Pass"⟩,
        .login sampleLibs ⟨some "a@b.com", some "Str0ng!Pass"⟩,
        .signup sampleLibs ⟨some "a@b.com", some "0ther!Pass"⟩,
        .signup sampleThrowing ⟨some "e@f.com", some "Str0ng!Pass"⟩]
      [⟨"c@d.com", "h"⟩] (by simp [UniqueEmails])⟩

/-- C10: a login leaves the store as it was and makes no write call; a signup
answered 400 leaves the store as it was and makes no write call; a signup
answered 200 makes exactly one write call, which appends to the store one
Account whose email is the submitted email and whose password is the hasher's
output for the submitted password under the salt generated with cost 10, the
Accounts already stored staying as they were. -/
theorem store_effects (lib : Libs) (req : Request) (s : Store) :
    ((loginUser (onStore lib) req s).store = s ∧
      ∀ call ∈ (loginUser (onStore lib) req s).calls, call.isWrite = false) ∧
    (∀ m, (signupUser (onStore lib) req s).responses = [⟨400, .error m⟩] →
      (signupUser (onStore lib) req s).store = s ∧
      ∀ call ∈ (signupUser (onStore lib) req s).calls, call.isWrite = false) ∧
    (∀ u, (signupUser (onStore lib) req s).responses = [⟨200, .user u⟩] →
      ∃ salt, lib.genSalt 10 = .ok salt ∧
        lib.hash (str req.password) salt = .ok u.password ∧
        req.email = some u.email ∧
        (signupUser (onStore lib) req s).store = s ++ [u] ∧
        (signupUser (onStore lib) req s).calls.filter Call.isWrite
          = [.create u.email u.password]) := by
  refine ⟨⟨login_store _ req s, login_no_write _ req s⟩, ?_, ?_⟩
  · intro m hm
    rcases signup_cases lib req s with ⟨u, hu⟩ | ⟨m', -, hstore, hcalls⟩
    · rw [hu] at hm; simp at hm
    · exact ⟨hstore, hcalls⟩
  · intro u hu
    obtain ⟨salt, he, -, -, -, -, hsalt, hhash, hmail, hstore, hcalls⟩ :=
      signup_success lib req s u hu
    refine ⟨salt, hsalt, hhash, ?_, hstore, ?_⟩
    · cases hreq : req.email with
      | none => simp [hreq, truthy] at he
      | some e => simp [hreq] at hmail; simp [hmail]
    · rw [hcalls, hmail]
      simp [List.filter, Call.isWrite]

/-- On the sample collaborators: a rejected signup and a successful one, from a one-Account store. -/
theorem store_effects_witness :
    ((signupUser (onStore sampleLibs) ⟨some "a@b.com", some "weak"⟩
          [⟨"c@d.com", "h"⟩]).store = [⟨"c@d.com", "h"⟩] ∧
      ∀ call ∈ (signupUser (onStore sampleLibs) ⟨some "a@b.com", some "weak"⟩
          [⟨"c@d.com", "h"⟩]).calls, call.isWrite = false) ∧
    (∃ salt, sampleLibs.genSalt 10 = .ok salt ∧
      sampleLibs.hash (str (some "Str0ng!Pass")) salt = .ok "$2a$10$salt$Str0ng!Pass" ∧
      some "a@b.com" = some "a@b.com" ∧
      (signupUser (onStore sampleLibs) ⟨some "a@b.com", some "Str0ng!Pass"⟩
          [⟨"c@d.com", "h"⟩]).store
        = [⟨"c@d.com", "h"⟩] ++ [⟨"a@b.com", "$2a$10$salt$Str0ng!Pass"⟩] ∧
      (signupUser (onStore sampleLibs) ⟨some "a@b.com", some "Str0ng!Pass"⟩
          [⟨"c@d.com", "h"⟩]).calls.filter Call.isWrite
        = [.create "a@b.com" "$2a$10$salt$Str0ng!Pass"]) :=
  ⟨(store_effects sampleLibs ⟨some "a@b.com", some "weak"⟩ [⟨"c@d.com", "h"⟩]).2.1
      "Password not strong enough" (by decide),
   (store_effects sampleLibs ⟨some "a@b.com", some "Str0ng!Pass"⟩ [⟨"c@d.com", "h"⟩]).2.2
      ⟨"a@b.com", "$2a$10$salt$Str0ng!Pass"⟩ (by decide)⟩

end UserController
